import Mathlib

/-- Verification of the crafting-game logic of `src/Lab1/src/Crafting.jsx`.

The React component is shallowly embedded: JS arrays of item ids (or null)
become `List (Option Item)`, the `discovered` object becomes its list of keys
(JS object keys are unique, insertion-ordered), `localStorage` under the single
key becomes an `Option String`, and each event handler becomes a pure function
from state to state.  Display-only fields of resources and recipes (name,
description, emoji image) are omitted; they do not affect any behavior.
-/

abbrev Item := String

/-- A recipe of the catalog: its id and its ingredient list (item ids).
Display-only fields (name, description, image) are omitted. -/
structure Recipe where
  id : String
  ingredients : List Item
deriving DecidableEq

/-- The `RESOURCES` list, reduced to the resource ids (name and emoji are display-only). -/
def RESOURCES : List Item := ["petal", "leaf", "drop"]

/-- The in-file recipe catalog `RECIPES`. -/
def RECIPES : List Recipe :=
  [ { id := "flower_bundle", ingredients := ["petal", "petal", "leaf"] },
    { id := "sparkling_dew", ingredients := ["drop", "petal", "leaf"] } ]

/-- Function `countItems(list)`: the JS object mapping each id to its number of
occurrences, embedded as the count function. -/
def countItems (list : List Item) : Item → Nat :=
  fun k => list.count k

/-- Function `matchRecipe(gridItems, recipe)`: every key of the requirement counts must
be present in the grid counts with at least the required multiplicity
(`!gridCounts[k] || gridCounts[k] < reqCounts[k]` fails the match), and the
number of non-empty grid slots must equal the number of required ingredients.
`Object.keys(reqCounts)` is the deduplicated ingredient list. -/
def matchRecipe (gridItems : List (Option Item)) (recipe : Recipe) : Bool :=
  let grid := gridItems.filterMap (fun x => x)
  let gridCounts := countItems grid
  let reqCounts := countItems recipe.ingredients
  (recipe.ingredients.dedup.all fun k =>
    decide (¬ (gridCounts k = 0 ∨ gridCounts k < reqCounts k)))
  && decide (grid.length = recipe.ingredients.length)

/-- The persisted part of the component state: `{ inv, discovered, finalCrafted }`.
`discovered` is the list of keys of the JS object (all values are `true`). -/
structure InventoryState where
  inv : List (Option Item)
  discovered : List String
  finalCrafted : Bool
deriving DecidableEq

/-- The whole mutable state the handlers touch: the persisted `inventory`
state plus the 9-slot `craftGrid`. -/
structure AppState where
  inventory : InventoryState
  craftGrid : List (Option Item)
deriving DecidableEq

/-- The drag payload: `{source: "palette", id}`, `{source: "inv", index}` or
`{source: "craft", index}`. -/
inductive DragSource
  | palette (itemId : Item)
  | inv (index : Nat)
  | craft (index : Nat)
deriving DecidableEq

/-- The fresh initial state passed to `usePersistedState`. -/
def freshInventory : InventoryState :=
  { inv := List.replicate 18 none, discovered := [], finalCrafted := false }

/-- The state read on startup: `raw ? JSON.parse(raw) : initial` inside
`try`/`catch`.  `raw` is `none` when no entry is stored; the empty string is
falsy in JS; `parse` returns `none` when `JSON.parse` throws. -/
def usePersistedStateInit (parse : String → Option InventoryState)
    (raw : Option String) (initial : InventoryState) : InventoryState :=
  match raw with
  | none => initial
  | some str =>
    if str = "" then initial
    else
      match parse str with
      | some s => s
      | none => initial

/-- Computed preview `possibleRecipe`: `RECIPES.find((r) => matchRecipe(craftGrid, r)) || null`. -/
def possibleRecipe (craftGrid : List (Option Item)) : Option Recipe :=
  RECIPES.find? (fun r => matchRecipe craftGrid r)

/-- Handler `addResourceToFirstSlot(id)`: place the resource into the first empty
inventory slot, or do nothing when the inventory is full (`slot === -1`). -/
def addResourceToFirstSlot (s : AppState) (itemId : Item) : AppState :=
  match s.inventory.inv.findIdx? (· == none) with
  | none => s
  | some slot =>
    { s with inventory := { s.inventory with inv := s.inventory.inv.set slot (some itemId) } }

/-- Handler `onDropToInv(e, targetIndex)` with the current drag payload.
Palette source: place only if the target slot is empty.  Inventory source:
`newInv[targetIndex] = newInv[from]; newInv[from] = null` (the read happens
before either write).  Craft source: move back only if the target is empty. -/
def onDropToInv (s : AppState) (payload : DragSource) (targetIndex : Nat) : AppState :=
  match payload with
  | .palette itemId =>
    if s.inventory.inv.getD targetIndex none ≠ none then s
    else { s with inventory :=
      { s.inventory with inv := s.inventory.inv.set targetIndex (some itemId) } }
  | .inv fromIdx =>
    let newInv := s.inventory.inv
    let newInv := (newInv.set targetIndex (newInv.getD fromIdx none)).set fromIdx none
    { s with inventory := { s.inventory with inv := newInv } }
  | .craft fromIdx =>
    if s.inventory.inv.getD targetIndex none ≠ none then s
    else
      { inventory := { s.inventory with
          inv := s.inventory.inv.set targetIndex (s.craftGrid.getD fromIdx none) },
        craftGrid := s.craftGrid.set fromIdx none }

/-- Handler `onDropToCraft(e, targetIndex)` with the current drag payload.
Palette and inventory sources place only into an empty target; a craft source
swaps unconditionally, both reads `craftGrid[from]`/`craftGrid[targetIndex]`
being from the pre-drop grid. -/
def onDropToCraft (s : AppState) (payload : DragSource) (targetIndex : Nat) : AppState :=
  match payload with
  | .palette itemId =>
    if s.craftGrid.getD targetIndex none ≠ none then s
    else { s with craftGrid := s.craftGrid.set targetIndex (some itemId) }
  | .inv fromIdx =>
    if s.craftGrid.getD targetIndex none ≠ none then s
    else
      { inventory := { s.inventory with inv := s.inventory.inv.set fromIdx none },
        craftGrid := s.craftGrid.set targetIndex (s.inventory.inv.getD fromIdx none) }
  | .craft fromIdx =>
    let newCraft :=
      (s.craftGrid.set targetIndex (s.craftGrid.getD fromIdx none)).set fromIdx
        (s.craftGrid.getD targetIndex none)
    { s with craftGrid := newCraft }

/-- Handler `onDeleteInv(index)`: clear one inventory slot. -/
def onDeleteInv (s : AppState) (index : Nat) : AppState :=
  { s with inventory := { s.inventory with inv := s.inventory.inv.set index none } }

/-- The greedy ingredient removal loop of `confirmCraft`: walk the grid slots
left to right; a non-empty slot whose item is still required
(`req.indexOf(...) !== -1`) is cleared and the first matching requirement is
spliced out. -/
def removeIngredients : List Item → List (Option Item) → List (Option Item)
  | _, [] => []
  | req, none :: rest => none :: removeIngredients req rest
  | req, some x :: rest =>
    if x ∈ req then none :: removeIngredients (req.erase x) rest
    else some x :: removeIngredients req rest

/-- Value `RECIPES[RECIPES.length - 1].id`: the id of the catalog's last recipe. -/
def lastRecipeId : String :=
  (RECIPES.getD (RECIPES.length - 1) { id := "", ingredients := [] }).id

/-- The JS object spread `{...discovered, [id]: true}` on the key list:
an existing key is unchanged (its value was already `true`), a new key is
appended. -/
def insertKey (keys : List String) (k : String) : List String :=
  if k ∈ keys then keys else keys ++ [k]

/-- Handler `confirmCraft()`: do nothing without a matching recipe; remove the
ingredients from a copy of the grid; if no inventory slot is free
(`free === -1`) alert and return WITHOUT committing any state; otherwise
commit the new inventory (result in the first free slot), the updated
`discovered`, the new `finalCrafted`, and the cleared grid. -/
def confirmCraft (s : AppState) : AppState :=
  match possibleRecipe s.craftGrid with
  | none => s
  | some recipe =>
    let newCraft := removeIngredients recipe.ingredients s.craftGrid
    match s.inventory.inv.findIdx? (· == none) with
    | none => s
    | some free =>
      { inventory :=
          { inv := s.inventory.inv.set free (some recipe.id),
            discovered := insertKey s.inventory.discovered recipe.id,
            finalCrafted := s.inventory.finalCrafted || decide (recipe.id = lastRecipeId) },
        craftGrid := newCraft }

/-- Query `canCraftWithResources()`: the recipes whose requirement counts are all
available among the non-empty inventory and craft-grid slots combined. -/
def canCraftWithResources (s : AppState) : List Recipe :=
  let available := (s.inventory.inv ++ s.craftGrid).filterMap (fun x => x)
  let availCounts := countItems available
  RECIPES.filter fun r =>
    let req := countItems r.ingredients
    r.ingredients.dedup.all fun k =>
      decide (¬ (availCounts k = 0 ∨ availCounts k < req k))

/-- Handler `resetGame()`: when the user confirms, remove the persisted entry and set
the fresh inventory state and the empty craft grid; otherwise do nothing.
Returns the new state and the new persisted entry. -/
def resetGame (confirmed : Bool) (s : AppState) (store : Option String) :
    AppState × Option String :=
  if confirmed then
    ({ inventory := freshInventory, craftGrid := List.replicate 9 none }, none)
  else (s, store)

/-- The user actions that mutate state while the app runs (everything except
the full reset and the initial load). `clearGrids` is the Clear Inventory
button, which empties both the inventory and the craft grid. -/
inductive GameAction
  | dropToInv (payload : DragSource) (target : Nat)
  | dropToCraft (payload : DragSource) (target : Nat)
  | deleteInv (index : Nat)
  | craft
  | clearGrids
  | addResource (itemId : Item)
deriving DecidableEq

/-- One step of the app under a user action. -/
def step (s : AppState) : GameAction → AppState
  | .dropToInv p t => onDropToInv s p t
  | .dropToCraft p t => onDropToCraft s p t
  | .deleteInv i => onDeleteInv s i
  | .craft => confirmCraft s
  | .clearGrids =>
    { inventory := { s.inventory with inv := List.replicate 18 none },
      craftGrid := List.replicate 9 none }
  | .addResource itemId => addResourceToFirstSlot s itemId

-- Counting helper

/-- The per-key availability loop shared by `matchRecipe` and
`canCraftWithResources` succeeds exactly when every item's required
multiplicity is available. -/
lemma all_count_le_iff (req avail : List Item) :
    (req.dedup.all fun k =>
      decide (¬ (avail.count k = 0 ∨ avail.count k < req.count k))) = true
      ↔ ∀ k, req.count k ≤ avail.count k := by
  simp only [List.all_eq_true, decide_eq_true_eq]
  constructor
  · intro h k
    by_cases hk : k ∈ req
    · have := h k (List.mem_dedup.mpr hk)
      omega
    · simp [List.count_eq_zero.mpr hk]
  · intro h k hk
    have h1 := h k
    have h2 : 0 < req.count k := List.count_pos_iff.mpr (List.mem_dedup.mp hk)
    omega

/-- C3: `matchRecipe` is exact multiset equality. -/
theorem matchRecipe_iff_multiset_eq (g : List (Option Item)) (r : Recipe) :
    matchRecipe g r = true ↔
      ((g.filterMap (fun x => x) : List Item) : Multiset Item)
        = (r.ingredients : Multiset Item) := by
  simp only [matchRecipe, countItems, Bool.and_eq_true, decide_eq_true_eq]
  rw [all_count_le_iff]
  constructor
  · rintro ⟨h1, h2⟩
    refine (Multiset.eq_of_le_of_card_le ?_ ?_).symm
    · rw [Multiset.le_iff_count]; intro x; simpa using h1 x
    · simpa using h2.le
  · intro h
    have hc : ∀ k, (g.filterMap (fun x => x)).count k = r.ingredients.count k := by
      intro k; have := congrArg (Multiset.count k) h; simpa using this
    refine ⟨fun k => (hc k).ge, ?_⟩
    have := congrArg Multiset.card h
    simpa using this

/-- C7: membership in `canCraftWithResources`. -/
theorem canCraftWithResources_iff (s : AppState) (r : Recipe) :
    r ∈ canCraftWithResources s ↔
      r ∈ RECIPES ∧
        (r.ingredients : Multiset Item) ≤
          (((s.inventory.inv ++ s.craftGrid).filterMap (fun x => x) : List Item) :
            Multiset Item) := by
  simp only [canCraftWithResources, countItems, List.mem_filter]
  constructor
  · rintro ⟨hm, hp⟩
    refine ⟨hm, ?_⟩
    rw [Multiset.le_iff_count]
    intro x
    simpa using (all_count_le_iff _ _).mp hp x
  · rintro ⟨hm, hp⟩
    refine ⟨hm, (all_count_le_iff _ _).mpr fun k => ?_⟩
    simpa using Multiset.le_iff_count.mp hp k

-- Drop semantics

/-- C2 counterexample state: petal in slot 0, leaf in slot 1. -/
def invPairState : AppState :=
  { inventory :=
      { inv := [some "petal", some "leaf"] ++ List.replicate 16 none,
        discovered := [], finalCrafted := false },
    craftGrid := List.replicate 9 none }

/-- C2 refuted: dropping slot 0 onto occupied slot 1 does not give slot 0 the
old contents of slot 1. -/
theorem onDropToInv_swap_refuted :
    invPairState.inventory.inv.getD 1 none = some "leaf" ∧
    (onDropToInv invPairState (DragSource.inv 0) 1).inventory.inv.getD 0 none
      ≠ invPairState.inventory.inv.getD 1 none := by decide

/-- C2 amended: an inventory-to-inventory drop moves: the target receives the
source's old contents and the source becomes empty (the target's old contents
are lost, so it is a swap only when the target was empty). -/
theorem onDropToInv_inv_is_move (s : AppState) (a b : Nat)
    (ha : a < s.inventory.inv.length) (hb : b < s.inventory.inv.length)
    (hab : a ≠ b) :
    (onDropToInv s (DragSource.inv a) b).inventory.inv.getD b none
        = s.inventory.inv.getD a none ∧
    (onDropToInv s (DragSource.inv a) b).inventory.inv.getD a none = none := by
  constructor
  · simp [onDropToInv, List.getD_eq_getElem?_getD, List.getElem?_set_ne hab,
      List.getElem?_set_self, hb]
  · simp [onDropToInv, List.getD_eq_getElem?_getD, List.getElem?_set_self,
      List.length_set, ha]

theorem onDropToInv_inv_is_move_witness :
    (onDropToInv invPairState (DragSource.inv 0) 1).inventory.inv.getD 1 none
        = invPairState.inventory.inv.getD 0 none ∧
    (onDropToInv invPairState (DragSource.inv 0) 1).inventory.inv.getD 0 none
        = none :=
  onDropToInv_inv_is_move invPairState 0 1 (by decide) (by decide) (by decide)

/-- C10: dropping an inventory slot onto itself clears it and leaves every
other slot unchanged. -/
theorem onDropToInv_self_deletes (s : AppState) (i : Nat)
    (hi : i < s.inventory.inv.length) :
    (onDropToInv s (DragSource.inv i) i).inventory.inv.getD i none = none ∧
    ∀ j, j ≠ i →
      (onDropToInv s (DragSource.inv i) i).inventory.inv.getD j none
        = s.inventory.inv.getD j none := by
  constructor
  · simp [onDropToInv, List.getD_eq_getElem?_getD, List.getElem?_set_self,
      List.length_set, hi]
  · intro j hj
    simp [onDropToInv, List.getD_eq_getElem?_getD,
      List.getElem?_set_ne (Ne.symm hj)]

theorem onDropToInv_self_deletes_witness :
    (onDropToInv invPairState (DragSource.inv 0) 0).inventory.inv.getD 0 none
        = none ∧
    ∀ j, j ≠ 0 →
      (onDropToInv invPairState (DragSource.inv 0) 0).inventory.inv.getD j none
        = invPairState.inventory.inv.getD j none :=
  onDropToInv_self_deletes invPairState 0 (by decide)

/-- C4 counterexample state: petal and leaf in the first two craft slots. -/
def craftPairState : AppState :=
  { inventory := freshInventory,
    craftGrid := [some "petal", some "leaf", none, none, none, none, none, none, none] }

/-- C4 refuted: dragging craft slot 0 onto the occupied craft slot 1 is not a
no-op (the two slots are swapped). -/
theorem onDropToCraft_occupied_noop_refuted :
    craftPairState.craftGrid.getD 1 none ≠ none ∧
    onDropToCraft craftPairState (DragSource.craft 0) 1 ≠ craftPairState := by
  decide

/-- C4 amended: palette drops (either target) and craft-to-inventory drops
are no-ops on an occupied target and place the dragged item on an empty
target; a craft-to-craft drop instead swaps the two grid slots
unconditionally. -/
theorem drop_placement_semantics (s : AppState) :
    (∀ itemId t, s.inventory.inv.getD t none ≠ none →
        onDropToInv s (DragSource.palette itemId) t = s) ∧
    (∀ itemId t, t < s.inventory.inv.length → s.inventory.inv.getD t none = none →
        (onDropToInv s (DragSource.palette itemId) t).inventory.inv.getD t none
          = some itemId) ∧
    (∀ itemId t, s.craftGrid.getD t none ≠ none →
        onDropToCraft s (DragSource.palette itemId) t = s) ∧
    (∀ itemId t, t < s.craftGrid.length → s.craftGrid.getD t none = none →
        (onDropToCraft s (DragSource.palette itemId) t).craftGrid.getD t none
          = some itemId) ∧
    (∀ i t, s.inventory.inv.getD t none ≠ none →
        onDropToInv s (DragSource.craft i) t = s) ∧
    (∀ i t, t < s.inventory.inv.length → s.inventory.inv.getD t none = none →
        (onDropToInv s (DragSource.craft i) t).inventory.inv.getD t none
            = s.craftGrid.getD i none ∧
          (i < s.craftGrid.length →
            (onDropToInv s (DragSource.craft i) t).craftGrid.getD i none = none)) ∧
    (∀ i t, i < s.craftGrid.length → t < s.craftGrid.length →
        (onDropToCraft s (DragSource.craft i) t).craftGrid.getD t none
            = s.craftGrid.getD i none ∧
          (t ≠ i →
            (onDropToCraft s (DragSource.craft i) t).craftGrid.getD i none
              = s.craftGrid.getD t none)) := by
  refine ⟨?_, ?_, ?_, ?_, ?_, ?_, ?_⟩
  · intro itemId t h
    simp only [onDropToInv]
    rw [if_pos h]
  · intro itemId t ht h
    simp only [onDropToInv]
    rw [if_neg (fun hn => hn h)]
    simp [List.getD_eq_getElem?_getD, List.getElem?_set_self, ht]
  · intro itemId t h
    simp only [onDropToCraft]
    rw [if_pos h]
  · intro itemId t ht h
    simp only [onDropToCraft]
    rw [if_neg (fun hn => hn h)]
    simp [List.getD_eq_getElem?_getD, List.getElem?_set_self, ht]
  · intro i t h
    simp only [onDropToInv]
    rw [if_pos h]
  · intro i t ht h
    refine ⟨?_, fun hi => ?_⟩
    · simp only [onDropToInv]
      rw [if_neg (fun hn => hn h)]
      simp [List.getD_eq_getElem?_getD, List.getElem?_set_self, ht]
    · simp only [onDropToInv]
      rw [if_neg (fun hn => hn h)]
      simp [List.getD_eq_getElem?_getD, List.getElem?_set_self, hi]
  · intro i t hi ht
    refine ⟨?_, fun hti => ?_⟩
    · by_cases hit : t = i
      · subst hit
        simp [onDropToCraft, List.getD_eq_getElem?_getD, List.getElem?_set_self,
          List.length_set, ht]
      · simp [onDropToCraft, List.getD_eq_getElem?_getD,
          List.getElem?_set_ne (Ne.symm hit), List.getElem?_set_self, ht]
    · simp [onDropToCraft, List.getD_eq_getElem?_getD, List.getElem?_set_self,
        List.length_set, hi, List.getElem?_set_ne hti]

theorem drop_placement_semantics_witness :
    onDropToCraft craftPairState (DragSource.palette "drop") 1 = craftPairState :=
  (drop_placement_semantics craftPairState).2.2.1 "drop" 1 (by decide)

-- Crafting

/-- C1 state: a matching grid for flower_bundle while all 18 inventory slots
are occupied. -/
def fullInvState : AppState :=
  { inventory :=
      { inv := List.replicate 18 (some "petal"), discovered := [],
        finalCrafted := false },
    craftGrid := [some "petal", some "petal", some "leaf", none, none, none,
      none, none, none] }

/-- C1 refuted: with a valid craft and a full inventory, `confirmCraft`
returns before committing anything, so the grid slots are NOT cleared and the
recipe id is NOT added to the discovered set. -/
theorem confirmCraft_partial_mutation_refuted :
    (possibleRecipe fullInvState.craftGrid).isSome = true ∧
    fullInvState.inventory.inv.all (fun x => x.isSome) = true ∧
    confirmCraft fullInvState = fullInvState ∧
    (confirmCraft fullInvState).craftGrid.getD 0 none = some "petal" ∧
    "flower_bundle" ∉ (confirmCraft fullInvState).inventory.discovered := by
  decide

/-- C1 amended: confirming a valid craft with a full inventory leaves the
whole state unchanged (no grid clearing, no output, no discovery). -/
theorem confirmCraft_full_inventory_unchanged (s : AppState) (r : Recipe)
    (hr : possibleRecipe s.craftGrid = some r)
    (hfull : s.inventory.inv.findIdx? (· == none) = none) :
    confirmCraft s = s := by
  simp [confirmCraft, hr, hfull]

theorem confirmCraft_full_inventory_unchanged_witness :
    confirmCraft fullInvState = fullInvState :=
  confirmCraft_full_inventory_unchanged fullInvState
    { id := "flower_bundle", ingredients := ["petal", "petal", "leaf"] }
    (by decide) (by decide)

/-- C6: a successful craft records the recipe id in `discovered`, and a
repeat craft leaves `discovered` unchanged (no removal, no duplicate). -/
theorem confirmCraft_discovered (s : AppState) (r : Recipe)
    (hr : possibleRecipe s.craftGrid = some r)
    (hfree : (s.inventory.inv.findIdx? (· == none)).isSome = true) :
    r.id ∈ (confirmCraft s).inventory.discovered ∧
      (r.id ∈ s.inventory.discovered →
        (confirmCraft s).inventory.discovered = s.inventory.discovered) := by
  obtain ⟨free, hf⟩ := Option.isSome_iff_exists.mp hfree
  constructor
  · simp only [confirmCraft, hr, hf, insertKey]
    split
    · assumption
    · simp
  · intro hmem
    simp [confirmCraft, hr, hf, insertKey, hmem]

/-- C6 witness state: matching grid and an empty inventory with the recipe
already discovered. -/
def craftReadyState : AppState :=
  { inventory :=
      { inv := List.replicate 18 none, discovered := ["flower_bundle"],
        finalCrafted := false },
    craftGrid := [some "petal", some "petal", some "leaf", none, none, none,
      none, none, none] }

theorem confirmCraft_discovered_witness :
    "flower_bundle" ∈ (confirmCraft craftReadyState).inventory.discovered ∧
      ("flower_bundle" ∈ craftReadyState.inventory.discovered →
        (confirmCraft craftReadyState).inventory.discovered
          = craftReadyState.inventory.discovered) :=
  confirmCraft_discovered craftReadyState
    { id := "flower_bundle", ingredients := ["petal", "petal", "leaf"] }
    (by decide) (by decide)

-- finalCrafted, reset, load

/-- C5: under every running action, `finalCrafted` stays true once true, and
it becomes true exactly when a craft of the catalog's last recipe succeeds;
a confirmed full reset sets it back to false. -/
theorem finalCrafted_temporal :
    (∀ (s : AppState) (a : GameAction),
        ((step s a).inventory.finalCrafted = true ↔
          s.inventory.finalCrafted = true ∨
            (a = GameAction.craft ∧ ∃ r, possibleRecipe s.craftGrid = some r ∧
              (s.inventory.inv.findIdx? (· == none)).isSome = true ∧
              r.id = lastRecipeId))) ∧
    (∀ (s : AppState) (store : Option String),
        (resetGame true s store).1.inventory.finalCrafted = false) := by
  constructor
  · intro s a
    cases a with
    | dropToInv p t =>
      cases p <;> simp only [step, onDropToInv] <;> (try split) <;> simp
    | dropToCraft p t =>
      cases p <;> simp only [step, onDropToCraft] <;> (try split) <;> simp
    | deleteInv i => simp [step, onDeleteInv]
    | craft =>
      simp only [step]
      cases hr : possibleRecipe s.craftGrid with
      | none => simp [confirmCraft, hr]
      | some r =>
        cases hf : s.inventory.inv.findIdx? (· == none) with
        | none => simp [confirmCraft, hr, hf]
        | some free =>
          simp [confirmCraft, hr, hf]
    | clearGrids => simp [step]
    | addResource itemId =>
      simp only [step, addResourceToFirstSlot]
      cases s.inventory.inv.findIdx? (· == none) <;> simp
  · intro s store
    simp [resetGame, freshInventory]

/-- C8: a confirmed reset yields 18 empty inventory slots, 9 empty grid
slots, no discoveries, `finalCrafted = false`, and no persisted entry. -/
theorem resetGame_confirmed_fresh (s : AppState) (store : Option String) :
    (resetGame true s store).1.inventory.inv = List.replicate 18 none ∧
    (resetGame true s store).1.craftGrid = List.replicate 9 none ∧
    (resetGame true s store).1.inventory.discovered = [] ∧
    (resetGame true s store).1.inventory.finalCrafted = false ∧
    (resetGame true s store).2 = none := by
  simp [resetGame, freshInventory]

/-- C9: the startup load is total: no stored value gives the initial state, a
stored value that parses is used, and an unparsable stored value falls back
to the initial state.  `parse "" = none` reflects that `JSON.parse("")`
throws. -/
theorem usePersistedStateInit_total (parse : String → Option InventoryState)
    (initial : InventoryState) (hp : parse "" = none) :
    usePersistedStateInit parse none initial = initial ∧
    (∀ str s, parse str = some s →
        usePersistedStateInit parse (some str) initial = s) ∧
    (∀ str, parse str = none →
        usePersistedStateInit parse (some str) initial = initial) := by
  refine ⟨rfl, ?_, ?_⟩
  · intro str s h
    by_cases he : str = ""
    · subst he; rw [hp] at h; exact absurd h (by simp)
    · simp [usePersistedStateInit, he, h]
  · intro str h
    by_cases he : str = ""
    · subst he; simp [usePersistedStateInit]
    · simp [usePersistedStateInit, he, h]

/-- A concrete parse function standing in for `JSON.parse` plus shape check:
one well-formed stored string, everything else malformed. -/
def parseModel : String → Option InventoryState :=
  fun str =>
    if str = "stored" then
      some { inv := some "petal" :: List.replicate 17 none,
             discovered := ["flower_bundle"], finalCrafted := true }
    else none

theorem usePersistedStateInit_total_witness :
    usePersistedStateInit parseModel none freshInventory = freshInventory ∧
    usePersistedStateInit parseModel (some "stored") freshInventory
        = { inv := some "petal" :: List.replicate 17 none,
            discovered := ["flower_bundle"], finalCrafted := true } ∧
    usePersistedStateInit parseModel (some "corrupt--") freshInventory
        = freshInventory := by
  have h := usePersistedStateInit_total parseModel freshInventory (by decide)
  exact ⟨h.1, h.2.1 "stored" _ (by decide), h.2.2 "corrupt--" (by decide)⟩
